import Mathlib

/-!
# UHI temperature / humidity beacon (`src/main.cpp`)

A shallow embedding of the firmware sketch: the globals become the fields of
`State`, every call into a library (Wire, the two sensor drivers, Preferences,
the BLE stack, `delay`) is appended to `State.trace` as an `Effect`, and every
value a library call returns is read from an environment record
(`SetupEnv`, `LoopEnv`).  `Serial` diagnostics are not part of the model: they
neither read nor write any global.

Conventions

* `unsigned long` is 32 bits wide on the target; the arithmetic on
  `lastSensorRead` is done on `Nat` with explicit `% 4294967296`.
* a finite `float` is represented by its exact value `num / 2 ^ exp2`
  (`CFloat`); the drivers only ever return finite values.
* `while (1);` is represented by the `halted` flag of `State`: once it is set
  nothing further runs.
* the two `sprintf` buffers (`buffer[4]`, `tempStr[32]`) are not modelled as
  memory; `fmt03d_lt_1000` and `formatReading_fits` show that the text written
  fits them for the values that occur.
-/

namespace UHI

/-! ## Configuration -/

def TMP117_ADDR : Nat := 0x48
def SHTC3_ADDR : Nat := 0x70

def I2C_SDA : Nat := 6
def I2C_SCL : Nat := 7

def SERVICE_UUID : String := "4fafc201-1fb5-459e-8fcc-c5c9c331914b"
def CHARACTERISTIC_TEMP_UUID : String := "beb5483e-36e1-4688-b7f5-ea07361b26a8"

def BLE_NAMESPACE : String := "UHI_namespace"

/-- The constant `sensorInterval` of the sketch. -/
def sensorInterval : Nat := 1000

/-! ## Library types -/

/-- Status codes of the SHTC3 driver (`SHTC3_Status_TypeDef`). -/
inductive SHTC3_Status where
  | Nominal
  | Error
  | CRC_Fail
  | ID_Fail
  deriving DecidableEq, Repr

/-- A finite C `float`, held as the exact dyadic value `num / 2 ^ exp2`. -/
structure CFloat where
  num : Int
  exp2 : Nat
  deriving DecidableEq, Repr

/-- The literal `0.0`. -/
def CFloat.zero : CFloat := ⟨0, 0⟩

/-- Contents of the Preferences (NVS) namespace opened by the sketch:
the most recent binding of a key comes first. -/
abbrev Preferences := List (String × String)

/-- Library call `prefs.getString(key, defaultValue)`. -/
def Preferences.getString (p : Preferences) (key defaultValue : String) : String :=
  match p.lookup key with
  | some v => v
  | none => defaultValue

/-- Library call `prefs.putString(key, value)`. -/
def Preferences.putString (p : Preferences) (key value : String) : Preferences :=
  (key, value) :: p

/-- Every call the sketch makes into a library, in the order it is made. -/
inductive Effect where
  | wireBegin (sda scl : Nat)
  | beginTransmission (address : Nat)
  | endTransmission
  | setClock (hz : Nat)
  | tmp117Begin
  | shtc3Begin
  | prefsBegin (ns : String)
  | prefsGetString (key : String)
  | prefsPutString (key value : String)
  | prefsEnd
  | randomSeed
  | bleInit (name : String)
  | createServer
  | setCallbacks
  | createService (uuid : String)
  | createCharacteristic (uuid : String)
  | serviceStart
  | setAdvertisementData (serviceUuid : String)
  | setScanResponseData (name : String)
  | advertisingStart
  | dataReady
  | readTempC
  | update
  | toDegC
  | toPercent
  | setValue (value : String)
  | notify
  | delay (ms : Nat)
  | startAdvertising
  deriving DecidableEq, Repr

/-! ## Text formatting done by the C library -/

/-- Modelled from the spec: the C library conversion `%03d` used by
`sprintf(buffer, "%03d", num)` (the library is not part of the sources): the
decimal digits of `num`, padded with zeros on the left to a total width of 3,
the sign of a negative number taking one column. -/
def fmt03d (num : Int) : String :=
  let ds := Nat.toDigits 10 num.natAbs
  if num < 0 then String.mk ('-' :: (List.replicate (2 - ds.length) '0' ++ ds))
  else String.mk (List.replicate (3 - ds.length) '0' ++ ds)

/-- Nearest integer to `a / d`, ties to the even neighbour. -/
def roundHalfEven (a d : Nat) : Nat :=
  let q := a / d
  let r := a % d
  if 2 * r > d then q + 1
  else if 2 * r = d then (if q % 2 = 0 then q else q + 1)
  else q

/-- Number of hundredths printed by `%.2f` for the magnitude of `x`. -/
def hundredths (x : CFloat) : Nat :=
  roundHalfEven (x.num.natAbs * 100) (2 ^ x.exp2)

/-- Modelled from the spec: the C library conversion `%.2f` used by
`sprintf(tempStr, "%.2f,%.2f", ...)` (the library is not part of the sources):
the exact value rounded to two decimal places (ties to even), printed as
integer part, a point, and two fractional digits, with a leading minus sign for
a negative value. -/
def fmt2f (x : CFloat) : String :=
  let h := hundredths x
  String.mk ((if x.num < 0 then ['-'] else []) ++ Nat.toDigits 10 (h / 100)
    ++ ['.', Nat.digitChar (h / 10 % 10), Nat.digitChar (h % 10)])

/-- The `float` written `3.14159`: the nearest binary32 value,
`13176784 / 2 ^ 22`. -/
def float_3_14159 : CFloat := ⟨13176784, 22⟩

/-- The `float` written `7.0`. -/
def float_7_0 : CFloat := ⟨7, 0⟩

/-- The `float` written `0.375` (exact): its third decimal rounds up. -/
def float_0_375 : CFloat := ⟨3, 3⟩

/-- The `float` written `0.125` (exact): a tie between 0.12 and 0.13. -/
def float_0_125 : CFloat := ⟨1, 3⟩

/-- The `float` written `99.995`: the nearest binary32 value,
`13106545 / 2 ^ 17`, just above 99.995. -/
def float_99_995 : CFloat := ⟨13106545, 17⟩

/-- The `float` written `-0.001`: the nearest binary32 value,
`-8589935 / 2 ^ 33`. -/
def float_neg_0_001 : CFloat := ⟨-8589935, 33⟩

/-- The call `sprintf(tempStr, "%.2f,%.2f", temperatureC, humidity)`. -/
def formatReading (temperatureC humidity : CFloat) : String :=
  fmt2f temperatureC ++ "," ++ fmt2f humidity

/-- Arduino core `random(howsmall, howbig)` as a function of the raw draw `r`
of the generator behind it (the core computes `random(howbig - howsmall) +
howsmall`, and `random(n)` reduces the raw draw modulo `n`): a value in
`[howsmall, howbig)`. -/
def random (howsmall howbig : Int) (r : Nat) : Int :=
  if howsmall ≥ howbig then howsmall
  else (r : Int) % (howbig - howsmall) + howsmall

/-! ## Program state -/

/-- The globals of the sketch, the state of the collaborators that the sketch
writes (stored preferences, characteristic value) and the trace of library
calls made so far. -/
structure State where
  deviceConnected : Bool
  TMP117Present : Bool
  SHTC3Present : Bool
  lastSensorRead : Nat
  temperatureC : CFloat
  humidity : CFloat
  bleName : String
  prefs : Preferences
  tempCharacteristic : Option String
  halted : Bool
  trace : List Effect
  deriving DecidableEq, Repr

/-- The globals as initialised at power-up, over the stored preferences. -/
def boot (prefs : Preferences) : State :=
  { deviceConnected := false
    TMP117Present := false
    SHTC3Present := false
    lastSensorRead := 0
    temperatureC := CFloat.zero
    humidity := CFloat.zero
    bleName := "quest_xxx"
    prefs := prefs
    tempCharacteristic := none
    halted := false
    trace := [] }

/-- Append library calls to the trace. -/
def State.emit (s : State) (es : List Effect) : State :=
  { s with trace := s.trace ++ es }

/-! ## BLE callbacks (`MyServerCallbacks`) -/

def onConnect (s : State) : State :=
  { s with deviceConnected := true }

def onDisconnect (s : State) : State :=
  ({ s with deviceConnected := false }).emit [Effect.delay 100, Effect.startAdvertising]

/-! ## Helper functions -/

/-- What the environment answers during `setup`. -/
structure SetupEnv where
  /-- Return code of `Wire.endTransmission()` after addressing the device. -/
  endTransmission : Nat → Nat
  /-- Result of `sensor.begin()`. -/
  tmp117Begin : Bool
  /-- Result of `shtc3.begin()`. -/
  shtc3Begin : SHTC3_Status
  /-- Raw draw of the generator behind `random`, after `randomSeed(micros())`. -/
  rnd : Nat

def checkSensor (env : SetupEnv) (address : Nat) (s : State) : Bool × State :=
  let s := s.emit [Effect.beginTransmission address, Effect.endTransmission]
  if env.endTransmission address = 0 then (true, s) else (false, s)

/-- The build-time override `forcedNumber`. -/
def forcedNumber : String := ""

def getOrGenerateBLEName (rnd : Nat) (s : State) : String × State :=
  let s := s.emit [Effect.prefsBegin BLE_NAMESPACE]
  if forcedNumber ≠ "" then
    let s := { s with prefs := s.prefs.putString "bleNumber" forcedNumber }
    let s := s.emit [Effect.prefsPutString "bleNumber" forcedNumber, Effect.prefsEnd]
    ("quest_" ++ forcedNumber, s)
  else
    let storedNumber := s.prefs.getString "bleNumber" ""
    let s := s.emit [Effect.prefsGetString "bleNumber"]
    if storedNumber = "" then
      let s := s.emit [Effect.randomSeed]
      let num := random 0 1000 rnd
      let storedNumber := fmt03d num
      let s := { s with prefs := s.prefs.putString "bleNumber" storedNumber }
      let s := s.emit [Effect.prefsPutString "bleNumber" storedNumber, Effect.prefsEnd]
      ("quest_" ++ storedNumber, s)
    else
      let s := s.emit [Effect.prefsEnd]
      ("quest_" ++ storedNumber, s)

/-! ## Setup -/

/-- First part of `setup`, from `Wire.begin` to the second `while (1)`: probe
both addresses, configure the bus clock, initialise the drivers found. -/
def setupSensors (env : SetupEnv) (s : State) : State :=
  let s := s.emit [Effect.wireBegin I2C_SDA I2C_SCL]
  let r := checkSensor env TMP117_ADDR s
  let s := if r.1 then ({ r.2 with TMP117Present := true }).emit [Effect.setClock 400000] else r.2
  let r := checkSensor env SHTC3_ADDR s
  let s := if r.1 then ({ r.2 with SHTC3Present := true }).emit [Effect.setClock 25000] else r.2
  -- `if (TMP117Present && !sensor.begin()) while (1);`
  let tmpFailed := s.TMP117Present && !env.tmp117Begin
  let s := if s.TMP117Present then s.emit [Effect.tmp117Begin] else s
  if tmpFailed then { s with halted := true }
  else
    -- `if (SHTC3Present && shtc3.begin() != SHTC3_Status_Nominal) while (1);`
    let shtFailed := s.SHTC3Present && decide (env.shtc3Begin ≠ SHTC3_Status.Nominal)
    let s := if s.SHTC3Present then s.emit [Effect.shtc3Begin] else s
    if shtFailed then { s with halted := true } else s

/-- Second part of `setup`: resolve the name, create server, service and
characteristic, configure and start advertising. -/
def setupBLE (env : SetupEnv) (s : State) : State :=
  let r := getOrGenerateBLEName env.rnd s
  let s := { r.2 with bleName := r.1 }
  s.emit [Effect.bleInit s.bleName, Effect.createServer, Effect.setCallbacks,
    Effect.createService SERVICE_UUID,
    Effect.createCharacteristic CHARACTERISTIC_TEMP_UUID,
    Effect.serviceStart,
    Effect.setAdvertisementData SERVICE_UUID,
    Effect.setScanResponseData s.bleName,
    Effect.advertisingStart]

def setup (env : SetupEnv) (s : State) : State :=
  let s := s.emit [Effect.delay 1000]
  let s := setupSensors env s
  if s.halted then s else setupBLE env s

/-- The calls of the second part of `setup`: preferences, random seed, BLE
stack and advertising. -/
def Effect.isNameOrBLE : Effect → Bool
  | Effect.prefsBegin _ => true
  | Effect.prefsGetString _ => true
  | Effect.prefsPutString _ _ => true
  | Effect.prefsEnd => true
  | Effect.randomSeed => true
  | Effect.bleInit _ => true
  | Effect.createServer => true
  | Effect.setCallbacks => true
  | Effect.createService _ => true
  | Effect.createCharacteristic _ => true
  | Effect.serviceStart => true
  | Effect.setAdvertisementData _ => true
  | Effect.setScanResponseData _ => true
  | Effect.advertisingStart => true
  | _ => false

/-- Bus clock of `Wire` before any `setClock` (the core's default, 100 kHz). -/
def defaultClock : Nat := 100000

/-- Bus clock in effect after a sequence of library calls: the argument of the
last `Wire.setClock`, or `dflt` when there was none. -/
def busClock (dflt : Nat) : List Effect → Nat
  | [] => dflt
  | Effect.setClock hz :: rest => busClock hz rest
  | _ :: rest => busClock dflt rest

/-! ## Loop -/

/-- What the environment answers during one call of `loop`. -/
structure LoopEnv where
  /-- Value of `millis()`. -/
  millis : Nat
  /-- Result of `sensor.dataReady()`. -/
  dataReady : Bool
  /-- Result of `sensor.readTempC()`. -/
  readTempC : CFloat
  /-- Result of `shtc3.update()`. -/
  update : SHTC3_Status
  /-- Result of `shtc3.toDegC()` after that update. -/
  toDegC : CFloat
  /-- Result of `shtc3.toPercent()` after that update. -/
  toPercent : CFloat

/-- Subtraction of two `unsigned long` values. -/
def subU32 (a b : Nat) : Nat :=
  (a % 4294967296 + 4294967296 - b % 4294967296) % 4294967296

/-- The local `now` of `loop`. -/
def LoopEnv.now (env : LoopEnv) : Nat := env.millis % 4294967296

/-- The guard `now - lastSensorRead >= sensorInterval`. -/
def isDue (env : LoopEnv) (s : State) : Bool :=
  decide (subU32 env.now s.lastSensorRead ≥ sensorInterval)

/-- The branch `if (TMP117Present && sensor.dataReady())`. -/
def readTMP117 (env : LoopEnv) (s : State) : State :=
  if s.TMP117Present then
    let s := s.emit [Effect.dataReady]
    if env.dataReady then
      ({ s with temperatureC := env.readTempC, humidity := CFloat.zero }).emit [Effect.readTempC]
    else s
  else s

/-- The branch `if (SHTC3Present && shtc3.update() == SHTC3_Status_Nominal)`. -/
def readSHTC3 (env : LoopEnv) (s : State) : State :=
  if s.SHTC3Present then
    let s := s.emit [Effect.update]
    if env.update = SHTC3_Status.Nominal then
      ({ s with temperatureC := env.toDegC, humidity := env.toPercent }).emit
        [Effect.toDegC, Effect.toPercent]
    else s
  else s

/-- The branch `if (deviceConnected)`. -/
def publish (s : State) : State :=
  if s.deviceConnected then
    let tempStr := formatReading s.temperatureC s.humidity
    ({ s with tempCharacteristic := some tempStr }).emit [Effect.setValue tempStr, Effect.notify]
  else s

def loop (env : LoopEnv) (s : State) : State :=
  let now := env.now
  let s :=
    if isDue env s then
      let s := { s with lastSensorRead := now }
      let s := readTMP117 env s
      let s := readSHTC3 env s
      publish s
    else s
  s.emit [Effect.delay 10]

/-- Successive calls of `loop`, one per environment answer. -/
def run : List LoopEnv → State → State
  | [], s => s
  | env :: envs, s => run envs (loop env s)

/-- The values of `now` at which the calls of a run found the tick due. -/
def pollTimes : List LoopEnv → State → List Nat
  | [], _ => []
  | env :: envs, s =>
      if isDue env s then env.now :: pollTimes envs (loop env s)
      else pollTimes envs (loop env s)

/-- The two calls of the publish branch: `setValue` and `notify`. -/
def Effect.isPublish : Effect → Bool
  | Effect.setValue _ => true
  | Effect.notify => true
  | _ => false

/-- A connection lifecycle event delivered by the BLE stack. -/
inductive Lifecycle where
  | connect
  | disconnect
  deriving DecidableEq, Repr

/-- The callback run for a lifecycle event. -/
def handle (s : State) : Lifecycle → State
  | Lifecycle.connect => onConnect s
  | Lifecycle.disconnect => onDisconnect s

/-- The callbacks run for a sequence of lifecycle events, in order. -/
def handleAll (s : State) (evs : List Lifecycle) : State :=
  evs.foldl handle s

/-! ## Sample inputs -/

/-- A boot at which both sensors acknowledge and initialise, and the generator
draws 42. -/
def bothAck : SetupEnv :=
  { endTransmission := fun _ => 0
    tmp117Begin := true
    shtc3Begin := SHTC3_Status.Nominal
    rnd := 42 }

/-- A boot at which the TMP117 acknowledges but its `begin` fails, the SHTC3
being absent. -/
def tmp117Fails : SetupEnv :=
  { endTransmission := fun a => if a = TMP117_ADDR then 0 else 2
    tmp117Begin := false
    shtc3Begin := SHTC3_Status.Nominal
    rnd := 42 }

/-- After a boot that found both sensors. -/
def bothPresent : State :=
  { boot [] with TMP117Present := true, SHTC3Present := true }

/-- The same with a client connected. -/
def bothPresentConnected : State := onConnect bothPresent

/-- One second after boot: TMP117 ready with 20.00, SHTC3 nominal with 25.00
and 50.00. -/
def tickBoth : LoopEnv :=
  { millis := 1000
    dataReady := true
    readTempC := ⟨20, 0⟩
    update := SHTC3_Status.Nominal
    toDegC := ⟨25, 0⟩
    toPercent := ⟨50, 0⟩ }

/-- One second after boot: TMP117 not ready, SHTC3 update failing its CRC. -/
def tickStale : LoopEnv :=
  { millis := 1000
    dataReady := false
    readTempC := ⟨20, 0⟩
    update := SHTC3_Status.CRC_Fail
    toDegC := ⟨25, 0⟩
    toPercent := ⟨50, 0⟩ }

/-- Half a second after boot. -/
def tickEarly : LoopEnv := { tickBoth with millis := 500 }

/-- A connected state holding the reading 3.14159, 7.0. -/
def holdingPi : State :=
  { bothPresentConnected with temperatureC := float_3_14159, humidity := float_7_0 }

/-- A connected state holding the reading 0.375, 99.995, where rounding and
truncating to two decimals differ in both fields. -/
def holdingRounded : State :=
  { bothPresentConnected with temperatureC := float_0_375, humidity := float_99_995 }

/-! # Theorems -/

/-! ## The loop: one call -/

theorem emit_trace (s : State) (es : List Effect) : (s.emit es).trace = s.trace ++ es := rfl

/-- A call of `loop` on a tick that is not due only idles. -/
theorem loop_not_due (env : LoopEnv) (s : State) (h : isDue env s = false) :
    loop env s = s.emit [Effect.delay 10] := by
  simp [loop, h]

/-- A call of `loop` on a due tick. -/
theorem loop_due (env : LoopEnv) (s : State) (h : isDue env s = true) :
    loop env s =
      (publish (readSHTC3 env (readTMP117 env { s with lastSensorRead := env.now }))).emit
        [Effect.delay 10] := by
  simp [loop, h]

theorem isDue_iff (env : LoopEnv) (s : State) :
    isDue env s = true ↔ subU32 env.now s.lastSensorRead ≥ sensorInterval := by
  simp [isDue]

theorem isDue_false_iff (env : LoopEnv) (s : State) :
    isDue env s = false ↔ subU32 env.now s.lastSensorRead < sensorInterval := by
  simp [isDue]

/-- C1: on a due tick with both sensors present, the TMP117 reporting data
ready (temperature `env.readTempC`) and the SHTC3 update returning nominal
status, the reading after the tick is the SHTC3 temperature and humidity,
whatever the TMP117 temperature was. -/
theorem loop_secondary_wins (env : LoopEnv) (s : State)
    (hdue : subU32 env.now s.lastSensorRead ≥ sensorInterval)
    (hT : s.TMP117Present = true) (hS : s.SHTC3Present = true)
    (hready : env.dataReady = true) (hnom : env.update = SHTC3_Status.Nominal) :
    (loop env s).temperatureC = env.toDegC ∧ (loop env s).humidity = env.toPercent := by
  rw [loop_due env s ((isDue_iff env s).2 hdue)]
  simp [publish, readSHTC3, readTMP117, State.emit, hT, hS, hready, hnom]
  split <;> simp

/-! Frame lemmas for the three branches of a due tick. -/

@[simp] theorem readTMP117_lastSensorRead (env : LoopEnv) (s : State) :
    (readTMP117 env s).lastSensorRead = s.lastSensorRead := by
  unfold readTMP117; split_ifs <;> rfl

@[simp] theorem readTMP117_deviceConnected (env : LoopEnv) (s : State) :
    (readTMP117 env s).deviceConnected = s.deviceConnected := by
  unfold readTMP117; split_ifs <;> rfl

@[simp] theorem readTMP117_SHTC3Present (env : LoopEnv) (s : State) :
    (readTMP117 env s).SHTC3Present = s.SHTC3Present := by
  unfold readTMP117; split_ifs <;> rfl

@[simp] theorem readSHTC3_lastSensorRead (env : LoopEnv) (s : State) :
    (readSHTC3 env s).lastSensorRead = s.lastSensorRead := by
  unfold readSHTC3; split_ifs <;> rfl

@[simp] theorem readSHTC3_deviceConnected (env : LoopEnv) (s : State) :
    (readSHTC3 env s).deviceConnected = s.deviceConnected := by
  unfold readSHTC3; split_ifs <;> rfl

@[simp] theorem publish_lastSensorRead (s : State) :
    (publish s).lastSensorRead = s.lastSensorRead := by
  unfold publish; split_ifs <;> rfl

@[simp] theorem publish_temperatureC (s : State) :
    (publish s).temperatureC = s.temperatureC := by
  unfold publish; split_ifs <;> rfl

@[simp] theorem publish_humidity (s : State) :
    (publish s).humidity = s.humidity := by
  unfold publish; split_ifs <;> rfl

@[simp] theorem emit_lastSensorRead (s : State) (es : List Effect) :
    (s.emit es).lastSensorRead = s.lastSensorRead := rfl

@[simp] theorem emit_temperatureC (s : State) (es : List Effect) :
    (s.emit es).temperatureC = s.temperatureC := rfl

@[simp] theorem emit_humidity (s : State) (es : List Effect) :
    (s.emit es).humidity = s.humidity := rfl

@[simp] theorem emit_tempCharacteristic (s : State) (es : List Effect) :
    (s.emit es).tempCharacteristic = s.tempCharacteristic := rfl

theorem loop_lastSensorRead (env : LoopEnv) (s : State) :
    (loop env s).lastSensorRead = if isDue env s then env.now else s.lastSensorRead := by
  cases h : isDue env s
  · simp [loop_not_due env s h]
  · simp [loop_due env s h]

/-- Unsigned subtraction is ordinary subtraction when the clock has not
wrapped since the last poll. -/
theorem subU32_of_le (a b : Nat) (hab : b ≤ a) (ha : a < 4294967296) :
    subU32 a b = a - b := by
  unfold subU32
  omega

theorem pollTimes_not_due (env : LoopEnv) (envs : List LoopEnv) (s : State)
    (h : isDue env s = false) :
    pollTimes (env :: envs) s = pollTimes envs (loop env s) := by
  simp [pollTimes, h]

theorem pollTimes_due (env : LoopEnv) (envs : List LoopEnv) (s : State)
    (h : isDue env s = true) :
    pollTimes (env :: envs) s = env.now :: pollTimes envs (loop env s) := by
  simp [pollTimes, h]

/-- After a poll at `last`, with a clock that does not run backwards or wrap,
every later poll is at least one interval after the one before it. -/
theorem pollTimes_chain (envs : List LoopEnv) :
    ∀ s : State, (∀ e ∈ envs, s.lastSensorRead ≤ e.millis ∧ e.millis < 4294967296) →
      envs.Pairwise (fun a b => a.millis ≤ b.millis) →
      List.Chain (fun a b => a + sensorInterval ≤ b) s.lastSensorRead (pollTimes envs s) := by
  induction envs with
  | nil => intro s _ _; exact List.Chain.nil
  | cons env envs ih =>
    intro s hr hp
    have henv := hr env (List.mem_cons_self _ _)
    have hnow : env.now = env.millis := by
      unfold LoopEnv.now; omega
    rw [List.pairwise_cons] at hp
    cases h : isDue env s
    · rw [pollTimes_not_due env envs s h]
      have hl : (loop env s).lastSensorRead = s.lastSensorRead := by
        rw [loop_lastSensorRead, h]; rfl
      rw [← hl]
      apply ih
      · intro e he
        rw [hl]
        exact hr e (List.mem_cons_of_mem _ he)
      · exact hp.2
    · rw [pollTimes_due env envs s h]
      refine List.Chain.cons ?_ ?_
      · have hd := (isDue_iff env s).1 h
        rw [hnow, subU32_of_le _ _ henv.1 henv.2] at hd
        rw [hnow]
        omega
      · have hl : (loop env s).lastSensorRead = env.now := by
          rw [loop_lastSensorRead, h]; rfl
        rw [← hl]
        apply ih
        · intro e he
          rw [hl, hnow]
          exact ⟨hp.1 e he, (hr e (List.mem_cons_of_mem _ he)).2⟩
        · exact hp.2

theorem pollTimes_gap (envs : List LoopEnv) :
    ∀ s : State, (∀ e ∈ envs, e.millis < 4294967296) →
      envs.Pairwise (fun a b => a.millis ≤ b.millis) →
      List.Chain' (fun a b => a + sensorInterval ≤ b) (pollTimes envs s) := by
  induction envs with
  | nil => intro s _ _; exact List.chain'_nil
  | cons env envs ih =>
    intro s hr hp
    rw [List.pairwise_cons] at hp
    have hnow : env.now = env.millis := by
      have := hr env (List.mem_cons_self _ _)
      unfold LoopEnv.now; omega
    cases h : isDue env s
    · rw [pollTimes_not_due env envs s h]
      exact ih _ (fun e he => hr e (List.mem_cons_of_mem _ he)) hp.2
    · rw [pollTimes_due env envs s h]
      have hl : (loop env s).lastSensorRead = env.now := by
        rw [loop_lastSensorRead, h]; rfl
      have := pollTimes_chain envs (loop env s) (by
        intro e he
        rw [hl, hnow]
        exact ⟨hp.1 e he, hr e (List.mem_cons_of_mem _ he)⟩) hp.2
      rw [hl] at this
      exact this

/-! Library calls made by the three branches of a due tick. -/

theorem readTMP117_trace (env : LoopEnv) (s : State) :
    ∃ q, (readTMP117 env s).trace = s.trace ++ q ∧ q.filter Effect.isPublish = [] := by
  unfold readTMP117
  split_ifs
  · exact ⟨[Effect.dataReady, Effect.readTempC], by simp [State.emit], rfl⟩
  · exact ⟨[Effect.dataReady], by simp [State.emit], rfl⟩
  · exact ⟨[], by simp, rfl⟩

theorem readSHTC3_trace (env : LoopEnv) (s : State) :
    ∃ q, (readSHTC3 env s).trace = s.trace ++ q ∧ q.filter Effect.isPublish = [] := by
  unfold readSHTC3
  split_ifs
  · exact ⟨[Effect.update, Effect.toDegC, Effect.toPercent], by simp [State.emit], rfl⟩
  · exact ⟨[Effect.update], by simp [State.emit], rfl⟩
  · exact ⟨[], by simp, rfl⟩

theorem publish_connected (s : State) (h : s.deviceConnected = true) :
    publish s =
      ({ s with tempCharacteristic := some (formatReading s.temperatureC s.humidity) }).emit
        [Effect.setValue (formatReading s.temperatureC s.humidity), Effect.notify] := by
  simp [publish, h]

theorem publish_disconnected (s : State) (h : s.deviceConnected = false) :
    publish s = s := by
  simp [publish, h]

/-- C2: on a due tick on which no sensor produces fresh data (the TMP117 is
absent or not data-ready, and the SHTC3 is absent or its update is not
nominal), `temperatureC` and `humidity` keep their values and
`lastSensorRead` becomes `now`. -/
theorem loop_last_value_held (env : LoopEnv) (s : State)
    (hdue : subU32 env.now s.lastSensorRead ≥ sensorInterval)
    (hT : s.TMP117Present = false ∨ env.dataReady = false)
    (hS : s.SHTC3Present = false ∨ env.update ≠ SHTC3_Status.Nominal) :
    (loop env s).temperatureC = s.temperatureC ∧ (loop env s).humidity = s.humidity ∧
      (loop env s).lastSensorRead = env.now := by
  have h := (isDue_iff env s).2 hdue
  have h1 : ∀ t : State, t.TMP117Present = s.TMP117Present →
      (readTMP117 env t).temperatureC = t.temperatureC ∧
      (readTMP117 env t).humidity = t.humidity := by
    intro t ht
    unfold readTMP117
    rcases hT with hT | hT
    · simp [ht, hT]
    · cases hp : t.TMP117Present <;> simp [hT, State.emit]
  have h2 : ∀ t : State, t.SHTC3Present = s.SHTC3Present →
      (readSHTC3 env t).temperatureC = t.temperatureC ∧
      (readSHTC3 env t).humidity = t.humidity := by
    intro t ht
    unfold readSHTC3
    rcases hS with hS | hS
    · simp [ht, hS]
    · cases hp : t.SHTC3Present <;> simp [hS, State.emit]
  have a := h1 { s with lastSensorRead := env.now } rfl
  have b := h2 (readTMP117 env { s with lastSensorRead := env.now }) (by simp)
  refine ⟨?_, ?_, ?_⟩
  · simp [loop_due env s h, a.1, b.1]
  · simp [loop_due env s h, a.2, b.2]
  · simp [loop_lastSensorRead, h]

/-- C3: the library calls added by one call of `loop` contain no
`setValue`/`notify` when `deviceConnected` is false, none when the tick is not
due, and exactly one `setValue` followed by one `notify` when the device is
connected and the tick is due; the value set is the formatted reading as it
stands after the sensor updates of that tick. -/
theorem loop_publish_gating (env : LoopEnv) (s : State) :
    ∃ new, (loop env s).trace = s.trace ++ new ∧
      (s.deviceConnected = false → new.filter Effect.isPublish = []) ∧
      (s.deviceConnected = true → subU32 env.now s.lastSensorRead < sensorInterval →
        new.filter Effect.isPublish = []) ∧
      (s.deviceConnected = true → subU32 env.now s.lastSensorRead ≥ sensorInterval →
        new.filter Effect.isPublish =
          [Effect.setValue (formatReading (loop env s).temperatureC (loop env s).humidity),
            Effect.notify] ∧
        (loop env s).tempCharacteristic =
          some (formatReading (loop env s).temperatureC (loop env s).humidity)) := by
  cases h : isDue env s
  · have hlt := (isDue_false_iff env s).1 h
    refine ⟨[Effect.delay 10], by rw [loop_not_due env s h]; rfl, fun _ => rfl, fun _ _ => rfl, ?_⟩
    intro _ hge
    exact absurd hge (Nat.not_le.2 hlt)
  · have hge := (isDue_iff env s).1 h
    obtain ⟨q1, hq1, hf1⟩ := readTMP117_trace env { s with lastSensorRead := env.now }
    obtain ⟨q2, hq2, hf2⟩ :=
      readSHTC3_trace env (readTMP117 env { s with lastSensorRead := env.now })
    have hc : (readSHTC3 env (readTMP117 env { s with lastSensorRead := env.now })).deviceConnected
        = s.deviceConnected := by simp
    rcases Bool.eq_false_or_eq_true s.deviceConnected |>.symm with hd | hd
    · replace hc := hc.trans hd
      refine ⟨q1 ++ q2 ++ [Effect.delay 10], ?_, ?_, ?_, ?_⟩
      · rw [loop_due env s h, publish_disconnected _ hc, emit_trace, hq2, hq1]
        simp
      · intro _
        simp [hf1, hf2, Effect.isPublish]
      · intro hf; exact absurd (hd.symm.trans hf) (by decide)
      · intro hf; exact absurd (hd.symm.trans hf) (by decide)
    · replace hc := hc.trans hd
      refine ⟨q1 ++ q2 ++ [Effect.setValue (formatReading (loop env s).temperatureC
        (loop env s).humidity), Effect.notify, Effect.delay 10], ?_, ?_, ?_, ?_⟩
      · rw [loop_due env s h, publish_connected _ hc]
        simp [emit_trace, hq2, hq1]
      · intro hf; exact absurd (hd.symm.trans hf) (by decide)
      · intro _ hlt
        exact absurd hge (Nat.not_le.2 hlt)
      · intro _ _
        constructor
        · simp [hf1, hf2, Effect.isPublish]
        · rw [loop_due env s h, publish_connected _ hc]
          simp

/-! ## Decimal formatting -/

theorem digitChar_isDigit (d : Nat) (h : d < 10) : (Nat.digitChar d).isDigit = true := by
  interval_cases d <;> decide

theorem toDigitsCore_digits (fuel : Nat) :
    ∀ (n : Nat) (acc : List Char), (∀ c ∈ acc, c.isDigit = true) →
      ∀ c ∈ Nat.toDigitsCore 10 fuel n acc, c.isDigit = true := by
  induction fuel with
  | zero => intro n acc hacc; simpa [Nat.toDigitsCore] using hacc
  | succ fuel ih =>
    intro n acc hacc
    have hd : (Nat.digitChar (n % 10)).isDigit = true :=
      digitChar_isDigit _ (Nat.mod_lt _ (by decide))
    have hacc2 : ∀ c ∈ Nat.digitChar (n % 10) :: acc, c.isDigit = true := by
      intro c hc
      rcases List.mem_cons.1 hc with rfl | hc
      · exact hd
      · exact hacc c hc
    rw [Nat.toDigitsCore]
    split_ifs
    · exact hacc2
    · exact ih _ _ hacc2

theorem toDigitsCore_ne_nil (fuel : Nat) :
    ∀ (n : Nat) (acc : List Char), acc ≠ [] → Nat.toDigitsCore 10 fuel n acc ≠ [] := by
  induction fuel with
  | zero => intro n acc hacc; simpa [Nat.toDigitsCore] using hacc
  | succ fuel ih =>
    intro n acc _
    rw [Nat.toDigitsCore]
    split_ifs
    · simp
    · exact ih _ _ (by simp)

/-- The decimal digits of a number are digits. -/
theorem toDigits_digits (n : Nat) : ∀ c ∈ Nat.toDigits 10 n, c.isDigit = true :=
  toDigitsCore_digits _ _ _ (by simp)

/-- A number has at least one decimal digit. -/
theorem toDigits_ne_nil (n : Nat) : Nat.toDigits 10 n ≠ [] := by
  unfold Nat.toDigits
  rw [Nat.toDigitsCore]
  split_ifs
  · simp
  · exact toDigitsCore_ne_nil _ _ _ (by simp)

theorem toDigits_lt_10 (n : Nat) (h : n < 10) : Nat.toDigits 10 n = [Nat.digitChar n] := by
  unfold Nat.toDigits
  rw [Nat.toDigitsCore]
  simp [Nat.div_eq_of_lt h, Nat.mod_eq_of_lt h]

theorem toDigits_lt_100 (n : Nat) (h1 : 10 ≤ n) (h : n < 100) :
    Nat.toDigits 10 n = [Nat.digitChar (n / 10), Nat.digitChar (n % 10)] := by
  have h2 : n / 10 ≠ 0 := by omega
  have h3 : n / 10 / 10 = 0 := by omega
  have h4 : n / 10 % 10 = n / 10 := by omega
  unfold Nat.toDigits
  rw [Nat.toDigitsCore]
  simp only [h2, if_false]
  rw [show n = (n - 1) + 1 by omega, Nat.toDigitsCore]
  rw [show n - 1 + 1 = n by omega]
  simp [h3, h4]

theorem toDigits_lt_1000 (n : Nat) (h1 : 100 ≤ n) (h : n < 1000) :
    Nat.toDigits 10 n =
      [Nat.digitChar (n / 100), Nat.digitChar (n / 10 % 10), Nat.digitChar (n % 10)] := by
  have h2 : n / 10 ≠ 0 := by omega
  have h3 : n / 10 / 10 ≠ 0 := by omega
  have h4 : n / 10 / 10 / 10 = 0 := by omega
  have h5 : n / 10 / 10 % 10 = n / 100 := by omega
  unfold Nat.toDigits
  rw [Nat.toDigitsCore]
  simp only [h2, if_false]
  rw [show n = (n - 2) + 1 + 1 by omega, Nat.toDigitsCore]
  rw [show n - 2 + 1 + 1 = n by omega]
  simp only [h3, if_false]
  rw [Nat.toDigitsCore]
  simp [h4, h5]

/-- The conversion `%03d` of a number below 1000 is its three decimal digits. -/
theorem fmt03d_lt_1000 (n : Nat) (h : n < 1000) :
    fmt03d (n : Int) =
      String.mk [Nat.digitChar (n / 100), Nat.digitChar (n / 10 % 10), Nat.digitChar (n % 10)] := by
  have hneg : ¬ ((n : Int) < 0) := by omega
  unfold fmt03d
  simp only [hneg, if_false, Int.natAbs_ofNat]
  by_cases h10 : n < 10
  · rw [toDigits_lt_10 n h10]
    have a : n / 100 = 0 := by omega
    have b : n / 10 % 10 = 0 := by omega
    have c : n % 10 = n := by omega
    have z : Nat.digitChar 0 = '0' := by decide
    simp [a, b, c, z, List.replicate]
  · by_cases h100 : n < 100
    · rw [toDigits_lt_100 n (by omega) h100]
      have a : n / 100 = 0 := by omega
      have b : n / 10 % 10 = n / 10 := by omega
      have z : Nat.digitChar 0 = '0' := by decide
      simp [a, b, z, List.replicate]
    · rw [toDigits_lt_1000 n (by omega) h]
      simp

/-- The number drawn by `random(0, 1000)`. -/
theorem random_0_1000 (r : Nat) : random 0 1000 r = ((r % 1000 : Nat) : Int) := by
  unfold random
  simp only [ge_iff_le]
  split_ifs with h
  · omega
  · omega

/-! ## Device name -/

theorem getString_of_lookup_none (p : Preferences) (key dflt : String)
    (h : p.lookup key = none) : p.getString key dflt = dflt := by
  simp [Preferences.getString, h]

theorem getString_putString (p : Preferences) (key value dflt : String) :
    (p.putString key value).getString key dflt = value := by
  simp [Preferences.getString, Preferences.putString, List.lookup]

/-- First call: nothing stored, a number is drawn, formatted and stored. -/
theorem getOrGenerateBLEName_absent (rnd : Nat) (s : State)
    (h : s.prefs.getString "bleNumber" "" = "") :
    (getOrGenerateBLEName rnd s).1 = "quest_" ++ fmt03d (random 0 1000 rnd) ∧
    (getOrGenerateBLEName rnd s).2.prefs =
      s.prefs.putString "bleNumber" (fmt03d (random 0 1000 rnd)) := by
  have hf : forcedNumber = "" := rfl
  simp [getOrGenerateBLEName, State.emit, hf, h]

/-- Later calls: the stored number is used and the store is left alone. -/
theorem getOrGenerateBLEName_present (rnd : Nat) (s : State)
    (h : s.prefs.getString "bleNumber" "" ≠ "") :
    (getOrGenerateBLEName rnd s).1 = "quest_" ++ s.prefs.getString "bleNumber" "" ∧
    (getOrGenerateBLEName rnd s).2.prefs = s.prefs := by
  have hf : forcedNumber = "" := rfl
  simp [getOrGenerateBLEName, State.emit, hf, h]

theorem fmt03d_random_ne_empty (rnd : Nat) : fmt03d (random 0 1000 rnd) ≠ "" := by
  rw [random_0_1000, fmt03d_lt_1000 _ (Nat.mod_lt _ (by decide))]
  intro h
  have := congrArg String.length h
  simp [String.length] at this

/-- C4: when the number key is absent from the store, two calls of
`getOrGenerateBLEName` in sequence return the same name, whatever the random
generator draws, and the name is `quest_` followed by exactly three decimal
digits. -/
theorem getOrGenerateBLEName_stable (s : State) (r1 r2 : Nat)
    (habsent : s.prefs.lookup "bleNumber" = none) :
    (getOrGenerateBLEName r2 (getOrGenerateBLEName r1 s).2).1 = (getOrGenerateBLEName r1 s).1 ∧
    ∃ a b c : Char, a.isDigit = true ∧ b.isDigit = true ∧ c.isDigit = true ∧
      (getOrGenerateBLEName r1 s).1 = "quest_" ++ String.mk [a, b, c] := by
  have h0 := getString_of_lookup_none s.prefs "bleNumber" "" habsent
  obtain ⟨hname, hprefs⟩ := getOrGenerateBLEName_absent r1 s h0
  have hstored : (getOrGenerateBLEName r1 s).2.prefs.getString "bleNumber" ""
      = fmt03d (random 0 1000 r1) := by
    rw [hprefs, getString_putString]
  have hne : (getOrGenerateBLEName r1 s).2.prefs.getString "bleNumber" "" ≠ "" := by
    rw [hstored]; exact fmt03d_random_ne_empty r1
  constructor
  · rw [(getOrGenerateBLEName_present r2 _ hne).1, hstored, hname]
  · refine ⟨Nat.digitChar (r1 % 1000 / 100), Nat.digitChar (r1 % 1000 / 10 % 10),
      Nat.digitChar (r1 % 1000 % 10), ?_, ?_, ?_, ?_⟩
    · exact digitChar_isDigit _ (by omega)
    · exact digitChar_isDigit _ (by omega)
    · exact digitChar_isDigit _ (by omega)
    · rw [hname, random_0_1000, fmt03d_lt_1000 _ (Nat.mod_lt _ (by decide))]

/-- C8 (as amended): when the number key is absent, the number generated is
`random(0, 1000)`, so `0 <= n < 1000` whatever the generator draws; it is
formatted as its three decimal digits, zero padded, and written to the store,
where every later call reads it back and leaves it in place. -/
theorem getOrGenerateBLEName_generates (s : State) (r : Nat)
    (habsent : s.prefs.lookup "bleNumber" = none) :
    0 ≤ random 0 1000 r ∧ random 0 1000 r < 1000 ∧
    (getOrGenerateBLEName r s).1 = "quest_" ++ fmt03d (random 0 1000 r) ∧
    fmt03d (random 0 1000 r) =
      String.mk [Nat.digitChar ((random 0 1000 r).toNat / 100),
        Nat.digitChar ((random 0 1000 r).toNat / 10 % 10),
        Nat.digitChar ((random 0 1000 r).toNat % 10)] ∧
    (getOrGenerateBLEName r s).2.prefs.getString "bleNumber" "" = fmt03d (random 0 1000 r) ∧
    ∀ r2 : Nat,
      (getOrGenerateBLEName r2 (getOrGenerateBLEName r s).2).1
        = "quest_" ++ fmt03d (random 0 1000 r) ∧
      (getOrGenerateBLEName r2 (getOrGenerateBLEName r s).2).2.prefs
        = (getOrGenerateBLEName r s).2.prefs := by
  have h0 := getString_of_lookup_none s.prefs "bleNumber" "" habsent
  obtain ⟨hname, hprefs⟩ := getOrGenerateBLEName_absent r s h0
  have hstored : (getOrGenerateBLEName r s).2.prefs.getString "bleNumber" ""
      = fmt03d (random 0 1000 r) := by
    rw [hprefs, getString_putString]
  have hne : (getOrGenerateBLEName r s).2.prefs.getString "bleNumber" "" ≠ "" := by
    rw [hstored]; exact fmt03d_random_ne_empty r
  refine ⟨?_, ?_, hname, ?_, hstored, ?_⟩
  · rw [random_0_1000]; omega
  · rw [random_0_1000]; omega
  · rw [random_0_1000, fmt03d_lt_1000 _ (Nat.mod_lt _ (by decide)), Int.toNat_ofNat]
  · intro r2
    obtain ⟨h1, h2⟩ := getOrGenerateBLEName_present r2 _ hne
    exact ⟨by rw [h1, hstored], h2⟩

/-- C8 (as stated) fails: with the key absent and the generator drawing 999,
the number generated is 999, which is not below 999, and the name is
`quest_999`. -/
theorem getOrGenerateBLEName_can_draw_999 :
    (boot []).prefs.lookup "bleNumber" = none ∧
    random 0 1000 999 = 999 ∧ ¬ (random 0 1000 999 < 999) ∧
    (getOrGenerateBLEName 999 (boot [])).1 = "quest_999" ∧
    (getOrGenerateBLEName 999 (boot [])).2.prefs.getString "bleNumber" "" = "999" := by
  decide

/-! ## Wire format -/

/-- The rounding of `%.2f` picks a nearest multiple: `roundHalfEven a d` is
within half a unit of `a / d`. -/
theorem roundHalfEven_nearest (a d : Nat) (hd : 0 < d) :
    2 * (roundHalfEven a d * d) ≤ 2 * a + d ∧ 2 * a ≤ 2 * (roundHalfEven a d * d) + d := by
  have h1 : d * (a / d) + a % d = a := Nat.div_add_mod a d
  have h2 : a % d < d := Nat.mod_lt a hd
  have h3 : (a / d + 1) * d = d * (a / d) + d := by ring
  have h4 : a / d * d = d * (a / d) := by ring
  unfold roundHalfEven
  simp only
  split_ifs <;> simp only [h3, h4] <;> omega

/-- The text printed by `%.2f`: an optional sign, at least one integer digit,
a point, and exactly two fractional digits. -/
theorem fmt2f_shape (x : CFloat) :
    ∃ (ip : List Char) (d1 d2 : Char), ip ≠ [] ∧ (∀ c ∈ ip, c.isDigit = true) ∧
      d1.isDigit = true ∧ d2.isDigit = true ∧
      fmt2f x = String.mk ((if x.num < 0 then ['-'] else []) ++ ip ++ ['.', d1, d2]) :=
  ⟨Nat.toDigits 10 (hundredths x / 100), Nat.digitChar (hundredths x / 10 % 10),
    Nat.digitChar (hundredths x % 10), toDigits_ne_nil _, toDigits_digits _,
    digitChar_isDigit _ (Nat.mod_lt _ (by decide)),
    digitChar_isDigit _ (Nat.mod_lt _ (by decide)), rfl⟩

/-- The `float` nearest to 3.14159 is `13176784 / 2 ^ 22`: a 24-bit
significand, within half a unit in the last place of 3.14159. -/
theorem float_3_14159_nearest :
    2 ^ 23 ≤ float_3_14159.num ∧ float_3_14159.num < 2 ^ 24 ∧
    2 * |float_3_14159.num * 100000 - 314159 * 2 ^ float_3_14159.exp2| ≤ 100000 := by
  decide

theorem toDigits_length_le_3 (n : Nat) (h : n < 1000) : (Nat.toDigits 10 n).length ≤ 3 := by
  by_cases h10 : n < 10
  · rw [toDigits_lt_10 n h10]; simp
  · by_cases h100 : n < 100
    · rw [toDigits_lt_100 n (by omega) h100]; simp
    · rw [toDigits_lt_1000 n (by omega) h]; simp

theorem roundHalfEven_le (a d : Nat) : roundHalfEven a d ≤ a / d + 1 := by
  unfold roundHalfEven
  simp only
  split_ifs <;> omega

/-- A value of magnitude below 999 prints in at most 7 characters. -/
theorem fmt2f_length (x : CFloat) (hx : x.num.natAbs < 999 * 2 ^ x.exp2) :
    (fmt2f x).length ≤ 7 := by
  have hpos : 0 < 2 ^ x.exp2 := Nat.pow_pos (by decide)
  have h1 : x.num.natAbs * 100 < 99900 * 2 ^ x.exp2 := by omega
  have h2 : x.num.natAbs * 100 / 2 ^ x.exp2 < 99900 := (Nat.div_lt_iff_lt_mul hpos).2 h1
  have h3 : hundredths x ≤ 99900 := by
    have := roundHalfEven_le (x.num.natAbs * 100) (2 ^ x.exp2)
    unfold hundredths
    omega
  have h4 := toDigits_length_le_3 (hundredths x / 100) (by omega)
  unfold fmt2f
  simp only [String.length, List.length_append, List.length_cons, List.length_nil]
  split_ifs <;> simp <;> omega

/-- The text written by `sprintf` into `tempStr[32]` fits, terminator included,
for every reading within the range of either sensor. -/
theorem formatReading_fits (t h : CFloat) (ht : t.num.natAbs < 999 * 2 ^ t.exp2)
    (hh : h.num.natAbs < 999 * 2 ^ h.exp2) : (formatReading t h).length + 1 ≤ 32 := by
  have a := fmt2f_length t ht
  have b := fmt2f_length h hh
  have c : (formatReading t h).length = (fmt2f t).length + 1 + (fmt2f h).length := by
    simp only [formatReading, String.length_append]
    rfl
  omega

/-- On a tie or off it, the rounding of `%.2f` lands on the even neighbour
whenever the value is exactly half way. -/
theorem roundHalfEven_tie_even (a d : Nat) (hd : 0 < d)
    (h : 2 * (roundHalfEven a d * d) = 2 * a + d ∨ 2 * a = 2 * (roundHalfEven a d * d) + d) :
    roundHalfEven a d % 2 = 0 := by
  have h1 : d * (a / d) + a % d = a := Nat.div_add_mod a d
  have h2 : a % d < d := Nat.mod_lt a hd
  have h3 : (a / d + 1) * d = d * (a / d) + d := by ring
  have h4 : a / d * d = d * (a / d) := by ring
  unfold roundHalfEven at h ⊢
  simp only at h ⊢
  split_ifs at h ⊢ <;> simp only [h3, h4] at h <;> omega

/-- There is only one integer nearest to `a / d` with ties to even. -/
theorem nearestEven_unique (a d k j : Nat) (hd : 0 < d)
    (hk1 : 2 * (k * d) ≤ 2 * a + d) (hk2 : 2 * a ≤ 2 * (k * d) + d)
    (hk3 : (2 * (k * d) = 2 * a + d ∨ 2 * a = 2 * (k * d) + d) → k % 2 = 0)
    (hj1 : 2 * (j * d) ≤ 2 * a + d) (hj2 : 2 * a ≤ 2 * (j * d) + d)
    (hj3 : (2 * (j * d) = 2 * a + d ∨ 2 * a = 2 * (j * d) + d) → j % 2 = 0) :
    j = k := by
  have step : ∀ x y : Nat, x < y → 2 * (y * d) ≤ 2 * a + d → 2 * a ≤ 2 * (x * d) + d →
      y = x + 1 ∧ 2 * (y * d) = 2 * a + d ∧ 2 * a = 2 * (x * d) + d := by
    intro x y hxy hy hx
    have hm : (x + 1) * d ≤ y * d := Nat.mul_le_mul_right d hxy
    have he : (x + 1) * d = x * d + d := by ring
    have hyd : y * d = (x + 1) * d := by omega
    have hyx : y = x + 1 := Nat.eq_of_mul_eq_mul_right hd hyd
    exact ⟨hyx, by omega, by omega⟩
  rcases Nat.lt_trichotomy k j with hlt | heq | hgt
  · obtain ⟨e1, e2, e3⟩ := step k j hlt hj1 hk2
    have := hk3 (Or.inr e3)
    have := hj3 (Or.inl e2)
    omega
  · exact heq.symm
  · obtain ⟨e1, e2, e3⟩ := step j k hgt hk1 hj2
    have := hj3 (Or.inr e3)
    have := hk3 (Or.inl e2)
    omega

/-- The text printed by `%.2f` is the decimal rendering of the number of
hundredths nearest to the magnitude of the value, ties to even. -/
theorem fmt2f_nearest (x : CFloat) :
    ∃ k : Nat,
      2 * (k * 2 ^ x.exp2) ≤ 2 * (x.num.natAbs * 100) + 2 ^ x.exp2 ∧
      2 * (x.num.natAbs * 100) ≤ 2 * (k * 2 ^ x.exp2) + 2 ^ x.exp2 ∧
      ((2 * (k * 2 ^ x.exp2) = 2 * (x.num.natAbs * 100) + 2 ^ x.exp2 ∨
        2 * (x.num.natAbs * 100) = 2 * (k * 2 ^ x.exp2) + 2 ^ x.exp2) → k % 2 = 0) ∧
      (∀ j : Nat,
        2 * (j * 2 ^ x.exp2) ≤ 2 * (x.num.natAbs * 100) + 2 ^ x.exp2 →
        2 * (x.num.natAbs * 100) ≤ 2 * (j * 2 ^ x.exp2) + 2 ^ x.exp2 →
        ((2 * (j * 2 ^ x.exp2) = 2 * (x.num.natAbs * 100) + 2 ^ x.exp2 ∨
          2 * (x.num.natAbs * 100) = 2 * (j * 2 ^ x.exp2) + 2 ^ x.exp2) → j % 2 = 0) →
        j = k) ∧
      fmt2f x = String.mk ((if x.num < 0 then ['-'] else []) ++ Nat.toDigits 10 (k / 100)
        ++ ['.', Nat.digitChar (k / 10 % 10), Nat.digitChar (k % 10)]) := by
  have hd : 0 < 2 ^ x.exp2 := Nat.pow_pos (by decide)
  have hn := roundHalfEven_nearest (x.num.natAbs * 100) (2 ^ x.exp2) hd
  have ht := roundHalfEven_tie_even (x.num.natAbs * 100) (2 ^ x.exp2) hd
  refine ⟨hundredths x, hn.1, hn.2, ht, ?_, rfl⟩
  intro j hj1 hj2 hj3
  exact nearestEven_unique _ _ _ _ hd hn.1 hn.2 ht hj1 hj2 hj3

/-- C5: publishing (the branch taken when `deviceConnected`) formats the
reading as `<temperatureC>,<humidity>` with `%.2f,%.2f`, sets exactly that
string as the characteristic value and notifies.  Each field is an optional
minus sign, the decimal digits of the integer part, a point and exactly two
fractional digits, and the number of hundredths printed is the one integer
nearest to the magnitude of the exact value times 100, ties going to the even
one.  The text fits `tempStr[32]` for readings of magnitude below 999.  The
reading 3.14159, 7.0 gives exactly `3.14,7.00`; 0.375, 99.995 gives
`0.38,100.00`; 0.125, -0.001 gives `0.12,-0.00`. -/
theorem publish_wire_format (s : State) (hconn : s.deviceConnected = true) :
    (publish s).tempCharacteristic = some (fmt2f s.temperatureC ++ "," ++ fmt2f s.humidity) ∧
    (publish s).trace =
      s.trace ++ [Effect.setValue (fmt2f s.temperatureC ++ "," ++ fmt2f s.humidity),
        Effect.notify] ∧
    (∀ x : CFloat, ∃ k : Nat,
      2 * (k * 2 ^ x.exp2) ≤ 2 * (x.num.natAbs * 100) + 2 ^ x.exp2 ∧
      2 * (x.num.natAbs * 100) ≤ 2 * (k * 2 ^ x.exp2) + 2 ^ x.exp2 ∧
      ((2 * (k * 2 ^ x.exp2) = 2 * (x.num.natAbs * 100) + 2 ^ x.exp2 ∨
        2 * (x.num.natAbs * 100) = 2 * (k * 2 ^ x.exp2) + 2 ^ x.exp2) → k % 2 = 0) ∧
      (∀ j : Nat,
        2 * (j * 2 ^ x.exp2) ≤ 2 * (x.num.natAbs * 100) + 2 ^ x.exp2 →
        2 * (x.num.natAbs * 100) ≤ 2 * (j * 2 ^ x.exp2) + 2 ^ x.exp2 →
        ((2 * (j * 2 ^ x.exp2) = 2 * (x.num.natAbs * 100) + 2 ^ x.exp2 ∨
          2 * (x.num.natAbs * 100) = 2 * (j * 2 ^ x.exp2) + 2 ^ x.exp2) → j % 2 = 0) →
        j = k) ∧
      fmt2f x = String.mk ((if x.num < 0 then ['-'] else []) ++ Nat.toDigits 10 (k / 100)
        ++ ['.', Nat.digitChar (k / 10 % 10), Nat.digitChar (k % 10)])) ∧
    (∀ x : CFloat, ∃ (ip : List Char) (d1 d2 : Char), ip ≠ [] ∧ (∀ c ∈ ip, c.isDigit = true) ∧
      d1.isDigit = true ∧ d2.isDigit = true ∧
      fmt2f x = String.mk ((if x.num < 0 then ['-'] else []) ++ ip ++ ['.', d1, d2])) ∧
    (s.temperatureC.num.natAbs < 999 * 2 ^ s.temperatureC.exp2 →
      s.humidity.num.natAbs < 999 * 2 ^ s.humidity.exp2 →
      (fmt2f s.temperatureC ++ "," ++ fmt2f s.humidity).length + 1 ≤ 32) ∧
    (s.temperatureC = float_3_14159 → s.humidity = float_7_0 →
      (publish s).tempCharacteristic = some "3.14,7.00") ∧
    (s.temperatureC = float_0_375 → s.humidity = float_99_995 →
      (publish s).tempCharacteristic = some "0.38,100.00") ∧
    (s.temperatureC = float_0_125 → s.humidity = float_neg_0_001 →
      (publish s).tempCharacteristic = some "0.12,-0.00") := by
  rw [publish_connected s hconn]
  refine ⟨rfl, rfl, fmt2f_nearest, fmt2f_shape, ?_, ?_, ?_, ?_⟩
  · intro ht hh
    exact formatReading_fits _ _ ht hh
  · intro ht hh
    simp only [emit_tempCharacteristic, ht, hh]
    decide
  · intro ht hh
    simp only [emit_tempCharacteristic, ht, hh]
    decide
  · intro ht hh
    simp only [emit_tempCharacteristic, ht, hh]
    decide

/-! ## Setup -/

theorem getOrGenerateBLEName_trace (rnd : Nat) (s : State) :
    ∃ q, (getOrGenerateBLEName rnd s).2.trace = s.trace ++ Effect.prefsBegin BLE_NAMESPACE :: q ∧
      ∀ e ∈ q, e.isNameOrBLE = true := by
  have hf : forcedNumber = "" := rfl
  unfold getOrGenerateBLEName
  simp only [hf, ne_eq, not_true_eq_false, if_false]
  split_ifs
  · exact ⟨[Effect.prefsGetString "bleNumber", Effect.randomSeed,
      Effect.prefsPutString "bleNumber" (fmt03d (random 0 1000 rnd)), Effect.prefsEnd],
      by simp [State.emit], by simp [Effect.isNameOrBLE]⟩
  · exact ⟨[Effect.prefsGetString "bleNumber", Effect.prefsEnd],
      by simp [State.emit], by simp [Effect.isNameOrBLE]⟩

theorem getOrGenerateBLEName_halted (rnd : Nat) (s : State) :
    (getOrGenerateBLEName rnd s).2.halted = s.halted := by
  have hf : forcedNumber = "" := rfl
  unfold getOrGenerateBLEName
  simp only [hf, ne_eq, not_true_eq_false, if_false]
  split_ifs <;> rfl

theorem setupBLE_trace (env : SetupEnv) (s : State) :
    ∃ q, (setupBLE env s).trace = s.trace ++ Effect.prefsBegin BLE_NAMESPACE :: q ∧
      (∀ e ∈ q, e.isNameOrBLE = true) ∧
      Effect.bleInit (setupBLE env s).bleName ∈ q ∧ Effect.advertisingStart ∈ q := by
  obtain ⟨q, hq, hall⟩ := getOrGenerateBLEName_trace env.rnd s
  refine ⟨q ++ [Effect.bleInit (getOrGenerateBLEName env.rnd s).1, Effect.createServer,
    Effect.setCallbacks, Effect.createService SERVICE_UUID,
    Effect.createCharacteristic CHARACTERISTIC_TEMP_UUID, Effect.serviceStart,
    Effect.setAdvertisementData SERVICE_UUID,
    Effect.setScanResponseData (getOrGenerateBLEName env.rnd s).1,
    Effect.advertisingStart], ?_, ?_, ?_, ?_⟩
  · simp [setupBLE, State.emit, hq]
  · intro e he
    rcases List.mem_append.1 he with h | h
    · exact hall e h
    · simp at h
      rcases h with h | h | h | h | h | h | h | h | h <;> subst h <;> rfl
  · simp [setupBLE, State.emit]
  · simp

theorem setupBLE_halted (env : SetupEnv) (s : State) :
    (setupBLE env s).halted = s.halted := by
  simp [setupBLE, State.emit, getOrGenerateBLEName_halted]

/-- The library calls of the first part of `setup` after power-up, and whether
it halts, as a function of what the environment answers. -/
theorem setupSensors_boot (env : SetupEnv) (prefs : Preferences) :
    (setupSensors env ((boot prefs).emit [Effect.delay 1000])).trace =
      [Effect.delay 1000, Effect.wireBegin I2C_SDA I2C_SCL,
        Effect.beginTransmission TMP117_ADDR, Effect.endTransmission]
      ++ (if env.endTransmission TMP117_ADDR = 0 then [Effect.setClock 400000] else [])
      ++ [Effect.beginTransmission SHTC3_ADDR, Effect.endTransmission]
      ++ (if env.endTransmission SHTC3_ADDR = 0 then [Effect.setClock 25000] else [])
      ++ (if env.endTransmission TMP117_ADDR = 0 then [Effect.tmp117Begin] else [])
      ++ (if env.endTransmission TMP117_ADDR = 0 ∧ env.tmp117Begin = false then []
          else if env.endTransmission SHTC3_ADDR = 0 then [Effect.shtc3Begin] else []) ∧
    ((setupSensors env ((boot prefs).emit [Effect.delay 1000])).halted = true ↔
      (env.endTransmission TMP117_ADDR = 0 ∧ env.tmp117Begin = false) ∨
      (env.endTransmission SHTC3_ADDR = 0 ∧ env.shtc3Begin ≠ SHTC3_Status.Nominal)) := by
  by_cases ha : env.endTransmission TMP117_ADDR = 0 <;>
  by_cases hb : env.endTransmission SHTC3_ADDR = 0 <;>
  cases hc : env.tmp117Begin <;>
  by_cases hd : env.shtc3Begin = SHTC3_Status.Nominal <;>
  simp [setupSensors, checkSensor, State.emit, boot, ha, hb, hc, hd]

/-- An element that splits `A ++ B` and does not occur in `B` splits `A`. -/
theorem split_left {α : Type} {e : α} {pre post A B : List α}
    (h : A ++ B = pre ++ e :: post) (hB : e ∉ B) : ∃ post', A = pre ++ e :: post' := by
  rcases List.append_eq_append_iff.1 h with ⟨a', _, hb⟩ | ⟨c', ha, hc⟩
  · exact absurd (hb ▸ (by simp : e ∈ a' ++ e :: post)) hB
  · cases c' with
    | nil =>
      simp at hc
      exact absurd (hc ▸ (List.mem_cons_self _ _ : e ∈ e :: post)) hB
    | cons x rest =>
      simp at hc
      exact ⟨rest, by rw [ha, hc.1]⟩

/-- The trace of `setup` after power-up is the trace of its first part,
followed, unless that part halted, by calls of the second part only. -/
theorem setup_boot_trace (env : SetupEnv) (prefs : Preferences) :
    ∃ q, (setup env (boot prefs)).trace =
        (setupSensors env ((boot prefs).emit [Effect.delay 1000])).trace ++ q ∧
      (∀ e ∈ q, e.isNameOrBLE = true) ∧
      ((setupSensors env ((boot prefs).emit [Effect.delay 1000])).halted = true → q = []) ∧
      ((setupSensors env ((boot prefs).emit [Effect.delay 1000])).halted = false →
        Effect.prefsBegin BLE_NAMESPACE ∈ q ∧
        Effect.bleInit (setup env (boot prefs)).bleName ∈ q ∧
        Effect.advertisingStart ∈ q) := by
  cases hh : (setupSensors env ((boot prefs).emit [Effect.delay 1000])).halted
  · obtain ⟨q, hq, hall, hi, ha⟩ :=
      setupBLE_trace env (setupSensors env ((boot prefs).emit [Effect.delay 1000]))
    refine ⟨Effect.prefsBegin BLE_NAMESPACE :: q, ?_, ?_, ?_, ?_⟩
    · simp [setup, hh, hq]
    · intro e he
      rcases List.mem_cons.1 he with rfl | he
      · rfl
      · exact hall e he
    · intro hf; cases hf
    · intro _
      refine ⟨List.mem_cons_self _ _, List.mem_cons_of_mem _ ?_, List.mem_cons_of_mem _ ha⟩
      simpa [setup, hh] using hi
  · refine ⟨[], by simp [setup, hh], by simp, fun _ => rfl, ?_⟩
    intro hf; cases hf

theorem setup_boot_halted (env : SetupEnv) (prefs : Preferences) :
    (setup env (boot prefs)).halted =
      (setupSensors env ((boot prefs).emit [Effect.delay 1000])).halted := by
  cases hh : (setupSensors env ((boot prefs).emit [Effect.delay 1000])).halted
  · simp [setup, hh, setupBLE_halted]
  · simp [setup, hh]

/-- C9: after power-up `setup` halts exactly when some sensor acknowledged its
probe and its driver `begin` reported failure (`sensor.begin()` false, or
`shtc3.begin()` not nominal).  When it halts, no call of the name, BLE or
advertising part is made; when it does not, the name is resolved, BLE is
initialised and advertising starts.  A sensor that did not acknowledge never
has its `begin` called. -/
theorem setup_halts_iff (env : SetupEnv) (prefs : Preferences) :
    ((setup env (boot prefs)).halted = true ↔
      (env.endTransmission TMP117_ADDR = 0 ∧ env.tmp117Begin = false) ∨
      (env.endTransmission SHTC3_ADDR = 0 ∧ env.shtc3Begin ≠ SHTC3_Status.Nominal)) ∧
    ((setup env (boot prefs)).halted = true →
      ∀ e ∈ (setup env (boot prefs)).trace, e.isNameOrBLE = false) ∧
    ((setup env (boot prefs)).halted = false →
      Effect.prefsBegin BLE_NAMESPACE ∈ (setup env (boot prefs)).trace ∧
      Effect.bleInit (setup env (boot prefs)).bleName ∈ (setup env (boot prefs)).trace ∧
      Effect.advertisingStart ∈ (setup env (boot prefs)).trace) ∧
    (env.endTransmission TMP117_ADDR ≠ 0 → Effect.tmp117Begin ∉ (setup env (boot prefs)).trace) ∧
    (env.endTransmission SHTC3_ADDR ≠ 0 → Effect.shtc3Begin ∉ (setup env (boot prefs)).trace) := by
  obtain ⟨htr, hhalt⟩ := setupSensors_boot env prefs
  obtain ⟨q, hq, hall, hq1, hq2⟩ := setup_boot_trace env prefs
  have hh := setup_boot_halted env prefs
  refine ⟨?_, ?_, ?_, ?_, ?_⟩
  · rw [hh]; exact hhalt
  · intro h
    rw [hh] at h
    rw [hq, hq1 h, List.append_nil, htr]
    intro e he
    simp only [List.mem_append, List.mem_cons, List.mem_singleton] at he
    rcases he with ((((he | he) | he) | he) | he) | he
    · simp at he
      rcases he with rfl | rfl | rfl | rfl <;> rfl
    · split_ifs at he <;> simp at he
      subst he; rfl
    · rcases he with rfl | rfl | he
      · rfl
      · rfl
      · simp at he
    · split_ifs at he <;> simp at he
      subst he; rfl
    · split_ifs at he <;> simp at he
      subst he; rfl
    · split_ifs at he <;> simp at he
      subst he; rfl
  · intro h
    rw [hh] at h
    have := hq2 (by simpa using h)
    rw [hq]
    exact ⟨List.mem_append_right _ this.1, List.mem_append_right _ this.2.1,
      List.mem_append_right _ this.2.2⟩
  · intro ha hmem
    rw [hq, List.mem_append] at hmem
    rcases hmem with hmem | hmem
    · rw [htr] at hmem
      simp [ha] at hmem
    · have := hall _ hmem
      simp [Effect.isNameOrBLE] at this
  · intro hb hmem
    rw [hq, List.mem_append] at hmem
    rcases hmem with hmem | hmem
    · rw [htr] at hmem
      simp [hb] at hmem
    · have := hall _ hmem
      simp [Effect.isNameOrBLE] at this

theorem sensors_split (env : SetupEnv) (prefs : Preferences) (e : Effect)
    (he : e.isNameOrBLE = false) (pre post : List Effect)
    (h : (setup env (boot prefs)).trace = pre ++ e :: post) :
    ∃ post', (setupSensors env ((boot prefs).emit [Effect.delay 1000])).trace
      = pre ++ e :: post' := by
  obtain ⟨q, hq, hall, _, _⟩ := setup_boot_trace env prefs
  rw [hq] at h
  refine split_left h ?_
  intro hmem
  rw [hall e hmem] at he
  cases he

/-- C7 (as amended): after power-up, each sensor that acknowledged its probe
has `Wire.setClock` called with its required speed before its `begin`
(400000 for the TMP117, 25000 for the SHTC3).  The bus clock in effect when
`shtc3.begin()` is called is 25000; the bus clock in effect when
`sensor.begin()` is called is 400000 when the SHTC3 did not acknowledge and
25000 when it did, the clock set last being the one in effect. -/
theorem setup_clock_at_begin (env : SetupEnv) (prefs : Preferences) :
    (env.endTransmission TMP117_ADDR = 0 →
      Effect.tmp117Begin ∈ (setup env (boot prefs)).trace) ∧
    (env.endTransmission SHTC3_ADDR = 0 →
      ¬ (env.endTransmission TMP117_ADDR = 0 ∧ env.tmp117Begin = false) →
      Effect.shtc3Begin ∈ (setup env (boot prefs)).trace) ∧
    (∀ pre post, (setup env (boot prefs)).trace = pre ++ Effect.shtc3Begin :: post →
      Effect.setClock 25000 ∈ pre ∧ busClock defaultClock pre = 25000) ∧
    (∀ pre post, (setup env (boot prefs)).trace = pre ++ Effect.tmp117Begin :: post →
      Effect.setClock 400000 ∈ pre ∧
      busClock defaultClock pre =
        if env.endTransmission SHTC3_ADDR = 0 then 25000 else 400000) := by
  obtain ⟨htr, -⟩ := setupSensors_boot env prefs
  obtain ⟨q, hq, -, -, -⟩ := setup_boot_trace env prefs
  refine ⟨?_, ?_, ?_, ?_⟩
  · intro ha
    rw [hq, htr]
    simp [ha]
  · intro hb hc
    rw [hq, htr]
    simp [hb, hc]
  · intro pre post h
    obtain ⟨post', hs⟩ := sensors_split env prefs Effect.shtc3Begin rfl pre post h
    have hmem : Effect.shtc3Begin ∈
        (setupSensors env ((boot prefs).emit [Effect.delay 1000])).trace := by
      rw [hs]; simp
    rw [htr] at hmem hs
    by_cases hb : env.endTransmission SHTC3_ADDR = 0
    · by_cases hfail : env.endTransmission TMP117_ADDR = 0 ∧ env.tmp117Begin = false
      · simp [hb, hfail.1, hfail.2] at hmem
      · have hS : (([Effect.delay 1000, Effect.wireBegin I2C_SDA I2C_SCL,
            Effect.beginTransmission TMP117_ADDR, Effect.endTransmission]
            ++ (if env.endTransmission TMP117_ADDR = 0 then [Effect.setClock 400000] else [])
            ++ [Effect.beginTransmission SHTC3_ADDR, Effect.endTransmission,
              Effect.setClock 25000]
            ++ (if env.endTransmission TMP117_ADDR = 0 then [Effect.tmp117Begin] else []))
            ++ Effect.shtc3Begin :: []) = pre ++ Effect.shtc3Begin :: post' := by
          rw [← hs]; simp [hb, hfail]
        have hpre := ((List.append_cons_inj_of_not_mem (by split_ifs <;> simp)
          (by simp)).1 hS).1
        rw [← hpre]
        constructor
        · simp
        · split_ifs <;> rfl
    · simp [hb] at hmem
  · intro pre post h
    obtain ⟨post', hs⟩ := sensors_split env prefs Effect.tmp117Begin rfl pre post h
    have hmem : Effect.tmp117Begin ∈
        (setupSensors env ((boot prefs).emit [Effect.delay 1000])).trace := by
      rw [hs]; simp
    rw [htr] at hmem hs
    by_cases ha : env.endTransmission TMP117_ADDR = 0
    · have hS : (([Effect.delay 1000, Effect.wireBegin I2C_SDA I2C_SCL,
          Effect.beginTransmission TMP117_ADDR, Effect.endTransmission, Effect.setClock 400000,
          Effect.beginTransmission SHTC3_ADDR, Effect.endTransmission]
          ++ (if env.endTransmission SHTC3_ADDR = 0 then [Effect.setClock 25000] else []))
          ++ Effect.tmp117Begin ::
            (if env.endTransmission TMP117_ADDR = 0 ∧ env.tmp117Begin = false then []
             else if env.endTransmission SHTC3_ADDR = 0 then [Effect.shtc3Begin] else []))
          = pre ++ Effect.tmp117Begin :: post' := by
        rw [← hs]; simp [ha]
      have hpre := ((List.append_cons_inj_of_not_mem (by split_ifs <;> simp)
        (by split_ifs <;> simp)).1 hS).1
      rw [← hpre]
      constructor
      · simp
      · split_ifs <;> rfl
    · simp [ha] at hmem

/-- C7 (as stated) fails: with both sensors acknowledging, the bus clock in
effect when the TMP117 `begin` is called is 25000, not the 400000 it
requires. -/
theorem setup_tmp117_begin_at_25000 :
    bothAck.endTransmission TMP117_ADDR = 0 ∧
    bothAck.endTransmission SHTC3_ADDR = 0 ∧
    ∃ pre post, (setup bothAck (boot [])).trace = pre ++ Effect.tmp117Begin :: post ∧
      busClock defaultClock pre = 25000 ∧ busClock defaultClock pre ≠ 400000 :=
  ⟨rfl, rfl,
    [Effect.delay 1000, Effect.wireBegin I2C_SDA I2C_SCL,
      Effect.beginTransmission TMP117_ADDR, Effect.endTransmission, Effect.setClock 400000,
      Effect.beginTransmission SHTC3_ADDR, Effect.endTransmission, Effect.setClock 25000],
    [Effect.shtc3Begin, Effect.prefsBegin BLE_NAMESPACE, Effect.prefsGetString "bleNumber",
      Effect.randomSeed, Effect.prefsPutString "bleNumber" "042", Effect.prefsEnd,
      Effect.bleInit "quest_042", Effect.createServer, Effect.setCallbacks,
      Effect.createService SERVICE_UUID, Effect.createCharacteristic CHARACTERISTIC_TEMP_UUID,
      Effect.serviceStart, Effect.setAdvertisementData SERVICE_UUID,
      Effect.setScanResponseData "quest_042", Effect.advertisingStart],
    by decide, by decide, by decide⟩

/-! ## Connection lifecycle -/

theorem handleAll_append (s : State) (xs ys : List Lifecycle) :
    handleAll s (xs ++ ys) = handleAll (handleAll s xs) ys := by
  simp [handleAll, List.foldl_append]

theorem handleAll_count (evs : List Lifecycle) :
    ∀ s : State, (handleAll s evs).trace.count Effect.startAdvertising =
      s.trace.count Effect.startAdvertising + evs.count Lifecycle.disconnect := by
  induction evs with
  | nil => intro s; simp [handleAll]
  | cons ev evs ih =>
    intro s
    have hstep : handleAll s (ev :: evs) = handleAll (handle s ev) evs := rfl
    rw [hstep, ih]
    cases ev
    · simp [handle, onConnect]
    · simp [handle, onDisconnect, State.emit, List.count_cons]
      omega

/-- C10: `onConnect` sets `deviceConnected` and changes nothing else;
`onDisconnect` clears it and, after `delay(100)`, restarts advertising inside
the same callback.  So over any sequence of lifecycle events, once a disconnect
has been handled the last library call made is the advertising restart, before
any later event is handled, and there are as many restarts as disconnects. -/
theorem callbacks_lifecycle (s : State) :
    onConnect s = { s with deviceConnected := true } ∧
    onDisconnect s =
      { s with deviceConnected := false,
               trace := s.trace ++ [Effect.delay 100, Effect.startAdvertising] } ∧
    (∀ pre post : List Lifecycle,
      (handleAll s (pre ++ [Lifecycle.disconnect])).deviceConnected = false ∧
      (handleAll s (pre ++ [Lifecycle.disconnect])).trace.getLast? =
        some Effect.startAdvertising ∧
      handleAll s (pre ++ Lifecycle.disconnect :: post) =
        handleAll (handleAll s (pre ++ [Lifecycle.disconnect])) post) ∧
    (∀ evs : List Lifecycle,
      (handleAll s evs).trace.count Effect.startAdvertising =
        s.trace.count Effect.startAdvertising + evs.count Lifecycle.disconnect) := by
  refine ⟨rfl, rfl, ?_, fun evs => handleAll_count evs s⟩
  intro pre post
  have h1 : handleAll s (pre ++ [Lifecycle.disconnect]) = onDisconnect (handleAll s pre) := by
    rw [handleAll_append]; rfl
  refine ⟨?_, ?_, ?_⟩
  · rw [h1]; rfl
  · rw [h1]
    simp [onDisconnect, State.emit]
  · rw [← handleAll_append]
    simp

/-! ## Runs -/

/-- At the end of a run `lastSensorRead` holds the time of the last poll of the
run, or its initial value when the run never polled. -/
theorem run_lastSensorRead (envs : List LoopEnv) :
    ∀ s : State, (run envs s).lastSensorRead =
      (pollTimes envs s).getLast?.getD s.lastSensorRead := by
  induction envs with
  | nil => intro s; rfl
  | cons env envs ih =>
    intro s
    have hstep : run (env :: envs) s = run envs (loop env s) := rfl
    rw [hstep, ih, loop_lastSensorRead]
    cases h : isDue env s
    · rw [pollTimes_not_due env envs s h]
      simp
    · rw [pollTimes_due env envs s h]
      simp [List.getLast?_cons]

/-- C6: `loop` works only when `now - lastSensorRead >= 1000` (32-bit unsigned
subtraction): on a tick that is not due the only library call is the idle
`delay(10)` and `lastSensorRead`, `temperatureC`, `humidity` are unchanged; on a
due tick `lastSensorRead` becomes `now` whatever the sensors answer; and over
any run whose clock neither decreases nor wraps, two consecutive polls are at
least `sensorInterval` apart, `lastSensorRead` holding the time of the last
poll. -/
theorem loop_poll_interval (env : LoopEnv) (s : State) :
    (subU32 env.now s.lastSensorRead < sensorInterval →
      (loop env s).trace = s.trace ++ [Effect.delay 10] ∧
      (loop env s).lastSensorRead = s.lastSensorRead ∧
      (loop env s).temperatureC = s.temperatureC ∧
      (loop env s).humidity = s.humidity) ∧
    (subU32 env.now s.lastSensorRead ≥ sensorInterval →
      (loop env s).lastSensorRead = env.now) ∧
    (∀ envs : List LoopEnv, (∀ e ∈ envs, e.millis < 4294967296) →
      envs.Pairwise (fun a b => a.millis ≤ b.millis) →
      List.Chain' (fun a b => a + sensorInterval ≤ b) (pollTimes envs s) ∧
      (run envs s).lastSensorRead = (pollTimes envs s).getLast?.getD s.lastSensorRead) := by
  refine ⟨?_, ?_, ?_⟩
  · intro hlt
    have h := (isDue_false_iff env s).2 hlt
    rw [loop_not_due env s h]
    exact ⟨rfl, rfl, rfl, rfl⟩
  · intro hge
    simp [loop_lastSensorRead, (isDue_iff env s).2 hge]
  · intro envs hr hp
    exact ⟨pollTimes_gap envs s hr hp, run_lastSensorRead envs s⟩

/-! ## The theorems at the sample inputs -/

theorem loop_secondary_wins_witness :
    subU32 tickBoth.now bothPresent.lastSensorRead ≥ sensorInterval ∧
    (loop tickBoth bothPresent).temperatureC = ⟨25, 0⟩ ∧
    (loop tickBoth bothPresent).humidity = ⟨50, 0⟩ :=
  ⟨by decide, loop_secondary_wins tickBoth bothPresent (by decide) rfl rfl rfl rfl⟩

theorem loop_last_value_held_witness :
    subU32 tickStale.now holdingPi.lastSensorRead ≥ sensorInterval ∧
    (loop tickStale holdingPi).temperatureC = float_3_14159 ∧
    (loop tickStale holdingPi).humidity = float_7_0 ∧
    (loop tickStale holdingPi).lastSensorRead = 1000 :=
  ⟨by decide,
    loop_last_value_held tickStale holdingPi (by decide) (Or.inr rfl) (Or.inr (by decide))⟩

theorem loop_publish_gating_witness :
    ∃ new, (loop tickBoth bothPresentConnected).trace = bothPresentConnected.trace ++ new ∧
      new.filter Effect.isPublish = [Effect.setValue "25.00,50.00", Effect.notify] ∧
      (loop tickBoth bothPresentConnected).tempCharacteristic = some "25.00,50.00" := by
  obtain ⟨new, h1, -, -, h4⟩ := loop_publish_gating tickBoth bothPresentConnected
  obtain ⟨h5, h6⟩ := h4 rfl (by decide)
  exact ⟨new, h1, h5.trans (by decide), h6.trans (by decide)⟩

theorem getOrGenerateBLEName_stable_witness :
    (boot []).prefs.lookup "bleNumber" = none ∧
    (getOrGenerateBLEName 7 (getOrGenerateBLEName 42 (boot [])).2).1 = "quest_042" ∧
    (getOrGenerateBLEName 42 (boot [])).1 = "quest_042" :=
  ⟨rfl, (getOrGenerateBLEName_stable (boot []) 42 7 rfl).1.trans (by decide), by decide⟩

theorem publish_wire_format_witness :
    holdingPi.deviceConnected = true ∧
    (publish holdingPi).tempCharacteristic = some "3.14,7.00" ∧
    holdingRounded.deviceConnected = true ∧
    (publish holdingRounded).tempCharacteristic = some "0.38,100.00" ∧
    (publish holdingRounded).trace = [Effect.setValue "0.38,100.00", Effect.notify] :=
  ⟨rfl, (publish_wire_format holdingPi rfl).2.2.2.2.2.1 rfl rfl,
    rfl, (publish_wire_format holdingRounded rfl).2.2.2.2.2.2.1 rfl rfl,
    (publish_wire_format holdingRounded rfl).2.1.trans (by decide)⟩

theorem loop_poll_interval_witness :
    subU32 tickEarly.now bothPresent.lastSensorRead < sensorInterval ∧
    (loop tickEarly bothPresent).trace = bothPresent.trace ++ [Effect.delay 10] ∧
    (loop tickBoth bothPresent).lastSensorRead = 1000 ∧
    List.Chain' (fun a b => a + sensorInterval ≤ b)
      (pollTimes [tickEarly, tickBoth, tickStale] bothPresent) :=
  ⟨by decide, ((loop_poll_interval tickEarly bothPresent).1 (by decide)).1,
    (loop_poll_interval tickBoth bothPresent).2.1 (by decide),
    ((loop_poll_interval tickBoth bothPresent).2.2 [tickEarly, tickBoth, tickStale]
      (by decide) (by decide)).1⟩

theorem setup_clock_at_begin_witness :
    Effect.tmp117Begin ∈ (setup bothAck (boot [])).trace ∧
    Effect.shtc3Begin ∈ (setup bothAck (boot [])).trace :=
  ⟨(setup_clock_at_begin bothAck []).1 rfl,
    (setup_clock_at_begin bothAck []).2.1 rfl (by decide)⟩

theorem getOrGenerateBLEName_generates_witness :
    (boot []).prefs.lookup "bleNumber" = none ∧
    random 0 1000 1999 < 1000 ∧
    (getOrGenerateBLEName 1999 (boot [])).1 = "quest_999" :=
  ⟨rfl, (getOrGenerateBLEName_generates (boot []) 1999 rfl).2.1,
    (getOrGenerateBLEName_generates (boot []) 1999 rfl).2.2.1.trans (by decide)⟩

theorem setup_halts_iff_witness :
    (setup tmp117Fails (boot [])).halted = true ∧
    (setup bothAck (boot [])).halted = false ∧
    Effect.advertisingStart ∈ (setup bothAck (boot [])).trace :=
  ⟨(setup_halts_iff tmp117Fails []).1.2 (Or.inl ⟨rfl, rfl⟩), by decide,
    ((setup_halts_iff bothAck []).2.2.1 (by decide)).2.2⟩

theorem callbacks_lifecycle_witness :
    (handleAll (boot []) [Lifecycle.connect, Lifecycle.disconnect]).trace.getLast? =
      some Effect.startAdvertising ∧
    (handleAll (boot []) [Lifecycle.connect, Lifecycle.disconnect, Lifecycle.connect]).trace
      = [Effect.delay 100, Effect.startAdvertising] :=
  ⟨((callbacks_lifecycle (boot [])).2.2.1 [Lifecycle.connect] [Lifecycle.connect]).2.1,
    by decide⟩

end UHI
